import Mathlib

/-!
Verification of the metrixd host-metrics exporter's collection pipeline
and exposition protocol, as a shallow embedding of the Rust source.

Numeric values held by metrics are modelled over `ℚ` (the Rust source uses
`f64` but all claims about the arithmetic are exact statements, so the
rational embedding captures them; `u64` sampler values are modelled as `ℕ`,
with explicit checked subtraction where the source subtracts `u64`s).
-/

namespace Metrixd

/-! ## Usage-percent derivation (src/metrics/memory.rs, src/metrics/disk.rs)

`MemoryCollector::collect_metrics` computes
`if total_memory > 0 { (used_memory as f64 / total_memory as f64) * 100.0 } else { 0.0 }`
and `DiskCollector::collect_metrics` computes the same expression over
`used_space` / `total_space`.
-/

/-- The usage-percent expression of `MemoryCollector::collect_metrics`
(memory.rs lines 50–54): guarded division, 0 when the total is 0. -/
def memory_usage_percent (used_memory total_memory : ℕ) : ℚ :=
  if total_memory > 0 then ((used_memory : ℚ) / (total_memory : ℚ)) * 100 else 0

/-- The usage-percent expression of `DiskCollector::collect_metrics`
(disk.rs lines 141–145): identical guarded division over disk space. -/
def disk_usage_percent (used_space total_space : ℕ) : ℚ :=
  if total_space > 0 then ((used_space : ℚ) / (total_space : ℚ)) * 100 else 0

/-! ## Counters (src/metrics/cpu.rs, network.rs, disk.rs)

The prometheus `Counter::inc_by` adds a delta to the stored value.  Each
collector's `collect_metrics` calls `inc_by` with deltas built from
`random::<f64>()` samples (always in `[0, 1)`) scaled by positive constants,
or from `u64` sampler totals cast to `f64` (always non-negative).
-/

/-- One tick's sampler-derived inputs to `CpuCollector::collect_metrics`:
the three `random::<f64>()` samples used for the simulated CPU times. -/
structure CpuTick where
  rand_user : ℚ
  rand_system : ℚ
  rand_idle : ℚ

/-- `random::<f64>()` returns a value in `[0, 1)`. -/
def CpuTick.valid (t : CpuTick) : Prop :=
  0 ≤ t.rand_user ∧ t.rand_user < 1 ∧
  0 ≤ t.rand_system ∧ t.rand_system < 1 ∧
  0 ≤ t.rand_idle ∧ t.rand_idle < 1

instance (t : CpuTick) : Decidable t.valid := by
  unfold CpuTick.valid; infer_instance

/-- The three CPU-time counters of `CpuCollector`. -/
structure CpuCounters where
  cpu_time_user_seconds_total : ℚ
  cpu_time_system_seconds_total : ℚ
  cpu_time_idle_seconds_total : ℚ

/-- Counter updates of `CpuCollector::collect_metrics` (cpu.rs lines 104–110):
`inc_by(random * 10.0)`, `inc_by(random * 5.0)`, `inc_by(random * 100.0)`. -/
def cpuCollectCounters (c : CpuCounters) (t : CpuTick) : CpuCounters where
  cpu_time_user_seconds_total := c.cpu_time_user_seconds_total + t.rand_user * 10
  cpu_time_system_seconds_total := c.cpu_time_system_seconds_total + t.rand_system * 5
  cpu_time_idle_seconds_total := c.cpu_time_idle_seconds_total + t.rand_idle * 100

/-- Run a sequence of CPU collection ticks from a starting counter state. -/
def cpuRun (c : CpuCounters) (ticks : List CpuTick) : CpuCounters :=
  ticks.foldl cpuCollectCounters c

/-- One tick's sampler-derived inputs to `NetworkCollector::collect_metrics`:
the per-interface totals already summed (`u64` values, modelled as `ℕ`). -/
structure NetTick where
  total_received : ℕ
  total_transmitted : ℕ
  total_packets_received : ℕ
  total_packets_transmitted : ℕ

/-- The four cumulative counters of `NetworkCollector`. -/
structure NetCounters where
  network_bytes_received_total : ℚ
  network_bytes_transmitted_total : ℚ
  network_packets_received_total : ℚ
  network_packets_transmitted_total : ℚ

/-- Counter updates of `NetworkCollector::collect_metrics`
(network.rs lines 157–166): `inc_by(total as f64)` for each total. -/
def netCollectCounters (c : NetCounters) (t : NetTick) : NetCounters where
  network_bytes_received_total :=
    c.network_bytes_received_total + (t.total_received : ℚ)
  network_bytes_transmitted_total :=
    c.network_bytes_transmitted_total + (t.total_transmitted : ℚ)
  network_packets_received_total :=
    c.network_packets_received_total + (t.total_packets_received : ℚ)
  network_packets_transmitted_total :=
    c.network_packets_transmitted_total + (t.total_packets_transmitted : ℚ)

/-- Run a sequence of network collection ticks. -/
def netRun (c : NetCounters) (ticks : List NetTick) : NetCounters :=
  ticks.foldl netCollectCounters c

/-- One tick's random inputs to the counter part of
`DiskCollector::collect_metrics` (disk.rs lines 170–180). -/
structure DiskTick where
  rand_reads : ℚ
  rand_writes : ℚ

/-- `random::<f64>()` returns a value in `[0, 1)`. -/
def DiskTick.valid (t : DiskTick) : Prop :=
  0 ≤ t.rand_reads ∧ t.rand_reads < 1 ∧ 0 ≤ t.rand_writes ∧ t.rand_writes < 1

instance (t : DiskTick) : Decidable t.valid := by
  unfold DiskTick.valid; infer_instance

/-- The four cumulative I/O counters of `DiskCollector`. -/
structure DiskCounters where
  disk_reads_total : ℚ
  disk_writes_total : ℚ
  disk_read_bytes_total : ℚ
  disk_write_bytes_total : ℚ

/-- Counter updates of `DiskCollector::collect_metrics` (disk.rs 170–180):
`simulated_reads = random * 100.0`, `simulated_writes = random * 50.0`,
byte counters scaled by 4096. -/
def diskCollectCounters (c : DiskCounters) (t : DiskTick) : DiskCounters where
  disk_reads_total := c.disk_reads_total + t.rand_reads * 100
  disk_writes_total := c.disk_writes_total + t.rand_writes * 50
  disk_read_bytes_total := c.disk_read_bytes_total + t.rand_reads * 100 * 4096
  disk_write_bytes_total := c.disk_write_bytes_total + t.rand_writes * 50 * 4096

/-- Run a sequence of disk collection ticks (counter part). -/
def diskRun (c : DiskCounters) (ticks : List DiskTick) : DiskCounters :=
  ticks.foldl diskCollectCounters c

/-! ## Histogram (prometheus crate, consumed by cpu.rs / disk.rs / network.rs)

The histogram implementation itself lives in the external prometheus crate,
not under src/; it is modelled here from the spec's description of the
`Histogram` metric kind.
-/

/-- Modelled from the spec: the prometheus `Histogram` state consumed by the
collectors — a fixed ascending list of bucket upper bounds, one cumulative
count per bound, a running `_sum` and a running `_count` ("fixed, ascending
set of bucket upper bounds fixed at creation; each observation increments
exactly the buckets whose bound ≥ observed value, plus a running sum and
count"). -/
structure Histogram where
  bounds : List ℚ
  counts : List ℕ
  hsum : ℚ
  hcount : ℕ
deriving DecidableEq

/-- Modelled from the spec: a fresh histogram with the given bounds — all
bucket counts, the sum and the count start at zero. -/
def Histogram.new (bounds : List ℚ) : Histogram where
  bounds := bounds
  counts := bounds.map fun _ => 0
  hsum := 0
  hcount := 0

/-- Modelled from the spec: `Histogram::observe(v)` increments exactly the
buckets whose bound ≥ v, adds v to `_sum` and 1 to `_count`; the bucket
bounds themselves are immutable. -/
def Histogram.observe (h : Histogram) (v : ℚ) : Histogram where
  bounds := h.bounds
  counts := List.zipWith (fun b c => if v ≤ b then c + 1 else c) h.bounds h.counts
  hsum := h.hsum + v
  hcount := h.hcount + 1

/-- A histogram snapshot after a sequence of observations. -/
def Histogram.observeAll (h : Histogram) (vs : List ℚ) : Histogram :=
  vs.foldl Histogram.observe h

/-- The number of observations of a list that fall at or below a bucket
bound: the cumulative count that bucket holds in a snapshot. -/
def bucketCount (vs : List ℚ) (b : ℚ) : ℕ :=
  (vs.filter fun v => v ≤ b).length

/-- The bucket bounds of `cpu_load_distribution` (cpu.rs lines 60–64). -/
def cpu_load_distribution_buckets : List ℚ :=
  [0, 10, 25, 50, 75, 90, 95, 99, 100]

/-- The bucket bounds of `disk_operation_duration_seconds`
(disk.rs lines 95–100). -/
def disk_operation_duration_buckets : List ℚ :=
  [1/10000, 5/10000, 1/1000, 5/1000, 1/100, 25/1000, 5/100, 1/10, 25/100, 5/10, 1]

/-- The bucket bounds of `network_latency_seconds` (network.rs lines 91–96). -/
def network_latency_buckets : List ℚ :=
  [1/1000, 5/1000, 1/100, 25/1000, 5/100, 1/10, 25/100, 5/10, 1, 25/10, 5, 10]

/-! ## Metric registry (prometheus default registry, consumed by all files)

The registry lives in the external prometheus crate; modelled from the spec.
Metric creation at collector construction (`register_gauge!` etc.) goes
through it, and `main` aborts on any registration error (`.unwrap()` in the
constructors, `.expect` in main.rs lines 30–34).
-/

/-- The metric kinds stored in the registry. -/
inductive Metric where
  | gauge (value : ℚ)
  | counter (value : ℚ)
  | histogram (h : Histogram)
deriving DecidableEq

/-- Modelled from the spec: the `RegistrationError` taxonomy ("duplicate
metric name, invalid histogram buckets"). -/
inductive RegistrationError where
  | DuplicateMetricName
  | InvalidBuckets
deriving DecidableEq

/-- Modelled from the spec: the Metric Registry, a process-wide mapping from
metric name to typed metric object, enforcing name uniqueness. -/
structure Registry where
  metrics : List (String × Metric)
deriving DecidableEq

/-- The names currently registered. -/
def Registry.names (r : Registry) : List String :=
  r.metrics.map Prod.fst

/-- Look up the current metric registered under a name. -/
def Registry.find? (r : Registry) (name : String) : Option Metric :=
  (r.metrics.find? fun p => p.1 = name).map Prod.snd

/-- Modelled from the spec: registering a metric object under a name fails
with `DuplicateMetricName` when the name already exists, leaving the
registry unchanged; otherwise the pair is appended. -/
def Registry.register (r : Registry) (name : String) (m : Metric) :
    Registry × Option RegistrationError :=
  if r.names.contains name then (r, some .DuplicateMetricName)
  else (⟨r.metrics ++ [(name, m)]⟩, none)

/-- Bucket validation of `create_histogram`: a bucket-bound list is valid
when it is non-empty and strictly ascending. -/
def validBuckets (bounds : List ℚ) : Prop :=
  bounds ≠ [] ∧ bounds.Chain' (· < ·)

instance (bounds : List ℚ) : Decidable (validBuckets bounds) := by
  unfold validBuckets; infer_instance

/-- Modelled from the spec: `create_histogram(name, help, bucket_bounds)` —
"fails with `DuplicateMetricName` if `name` already exists in the registry;
fails with `InvalidBuckets` if bucket_bounds is empty or not strictly
ascending", and otherwise registers a fresh histogram with those bounds. -/
def Registry.create_histogram (r : Registry) (name : String) (bounds : List ℚ) :
    Registry × Option RegistrationError :=
  if r.names.contains name then (r, some .DuplicateMetricName)
  else if validBuckets bounds then
    (⟨r.metrics ++ [(name, .histogram (Histogram.new bounds))]⟩, none)
  else (r, some .InvalidBuckets)

/-- Startup registration: register each (name, metric) pair in order,
stopping at the first error — `main` aborts on the first registration
failure (`register_metrics failed` / the `.unwrap()` calls in each
collector's constructor), so no later pair is registered. -/
def registerAll (r : Registry) :
    List (String × Metric) → Except RegistrationError Registry
  | [] => .ok r
  | (name, m) :: rest =>
    match r.register name m with
    | (r', none) => registerAll r' rest
    | (_, some e) => .error e

/-! ## Disk gauge collection (src/metrics/disk.rs lines 128–168)

`DiskCollector::collect_metrics` refreshes the disk list, selects the disk
mounted at "/" (or else the first disk), and either writes real gauge
values — including `used_space = total_space - available_space`, a `u64`
subtraction that overflows when `available_space > total_space` — or, when
no disk is found, writes fixed fallback constants.
-/

/-- One entry of the sysinfo `Disks` list as read by disk.rs: mount point
plus the two `u64` space values (modelled as `ℕ`). -/
structure DiskInfo where
  mount_point : String
  total_space : ℕ
  available_space : ℕ
deriving DecidableEq

/-- Disk selection of disk.rs lines 133–137: the disk mounted at "/", or
else the first disk of the list. -/
def selectDisk (disks : List DiskInfo) : Option DiskInfo :=
  (disks.find? fun d => d.mount_point = "/").orElse fun _ => disks.head?

/-- Rust `u64` subtraction with overflow checking: `a - b` is defined only
when `b ≤ a`; an underflow is an arithmetic-overflow panic. -/
def u64Sub (a b : ℕ) : Option ℕ :=
  if b ≤ a then some (a - b) else none

/-- The six gauges written by the gauge part of
`DiskCollector::collect_metrics`. -/
structure DiskGauges where
  disk_usage_percent : ℚ
  disk_total_bytes : ℚ
  disk_used_bytes : ℚ
  disk_available_bytes : ℚ
  disk_inodes_total : ℚ
  disk_inodes_used : ℚ
deriving DecidableEq

/-- The fallback constants of disk.rs lines 160–168, written when no disk
is found. -/
def diskFallbackGauges : DiskGauges where
  disk_usage_percent := 45
  disk_total_bytes := 100000000000
  disk_used_bytes := 45000000000
  disk_available_bytes := 55000000000
  disk_inodes_total := 25600000
  disk_inodes_used := 11520000

/-- `(x : f64) as u64` for non-negative finite x: truncation toward zero. -/
def f64AsU64 (x : ℚ) : ℕ := x.floor.toNat

/-- The gauge part of `DiskCollector::collect_metrics` (disk.rs 128–168):
`none` models a panic (the `u64` underflow in
`total_space - available_space`); `some g` is a normal return writing the
gauges `g`. -/
def diskCollectGauges (disks : List DiskInfo) : Option DiskGauges :=
  match selectDisk disks with
  | some d =>
    (u64Sub d.total_space d.available_space).map fun used_space =>
      let usage_percent := disk_usage_percent used_space d.total_space
      let simulated_total_inodes := d.total_space / 4096
      let simulated_used_inodes :=
        f64AsU64 ((simulated_total_inodes : ℚ) * (usage_percent / 100))
      { disk_usage_percent := usage_percent
        disk_total_bytes := (d.total_space : ℚ)
        disk_used_bytes := (used_space : ℚ)
        disk_available_bytes := (d.available_space : ℚ)
        disk_inodes_total := (simulated_total_inodes : ℚ)
        disk_inodes_used := (simulated_used_inodes : ℚ) }
  | none => some diskFallbackGauges

/-- The gauge part of `CpuCollector::collect_metrics` (cpu.rs 86–101):
usage from the global CPU, core count, and the first CPU's frequency with
`unwrap_or(0)` when the CPU list is empty.  Total on every sampler
outcome. -/
def cpuCollectGauges (global_cpu_usage : ℚ) (cpu_frequencies : List ℕ) :
    ℚ × ℚ × ℚ :=
  (global_cpu_usage,
   (cpu_frequencies.length : ℚ),
   ((cpu_frequencies.head?.getD 0 : ℕ) : ℚ))

/-! ## Exposition endpoint (src/main.rs lines 67–84)

`metrics_handler` ignores the request, gathers the registry, text-encodes
it, and answers 200 with the encoded buffer — or 500 with a plain-text body
when encoding fails.  Its Rust return type is
`Result<Response<Body>, hyper::Error>`.
-/

/-- An inbound HTTP request, as far as the handler could observe it (it
ignores both fields). -/
structure HttpRequest where
  method : String
  path : String

/-- The parts of the HTTP response `metrics_handler` builds. -/
structure HttpResponse where
  status : ℕ
  contentType : Option String
  body : String
deriving DecidableEq

/-- The opaque `hyper::Error` type of the handler's `Result`. -/
inductive HyperError where
  | mk

/-- The outcome of `encoder.encode(&metric_families, &mut buffer)`: either
an encoding error message or the text-format dump of the registry. -/
def EncodeOutcome := Except String String

/-- `metrics_handler` (main.rs 67–84): on encode failure, `Ok` with status
500 and body "Internal Server Error"; otherwise `Ok` with status 200, the
encoder's format type as Content-Type, and the buffer as body.  The
`formatType` argument models `TextEncoder::format_type()`, the identifier
of the text exposition format. -/
def metrics_handler (_req : HttpRequest) (formatType : String)
    (encoded : EncodeOutcome) : Except HyperError HttpResponse :=
  match encoded with
  | .error _ =>
    .ok { status := 500, contentType := none, body := "Internal Server Error" }
  | .ok buffer =>
    .ok { status := 200, contentType := some formatType, body := buffer }

/-! ## Refresh scheduler (src/main.rs lines 42–53)

The spawned task is `loop { { lock; for each collector collect; } sleep 5s }`.
Modelled as the event trace the loop emits, one block per iteration.
-/

/-- Observable events of the scheduler loop. -/
inductive SchedEvent where
  | acquire
  | collect (collector : String)
  | release
  | sleep (seconds : ℕ)
deriving DecidableEq

/-- The collector set built in main.rs lines 21–27, in its fixed order. -/
def collectorSet : List String :=
  ["CpuCollector", "MemoryCollector", "DiskCollector", "SystemCollector",
   "NetworkCollector"]

/-- One iteration of the scheduler loop body (main.rs 43–52): take the
mutex, run every collector's `collect_metrics` in set order, drop the
mutex at scope end, then sleep 5 seconds. -/
def schedulerIteration (collectors : List String) : List SchedEvent :=
  SchedEvent.acquire :: (collectors.map SchedEvent.collect)
    ++ [SchedEvent.release, SchedEvent.sleep 5]

/-- The event trace after n iterations of the scheduler loop.  The loop has
no exit: the trace is defined for every n. -/
def schedulerTrace (collectors : List String) : ℕ → List SchedEvent
  | 0 => []
  | n + 1 => schedulerTrace collectors n ++ schedulerIteration collectors

/-- Pointwise comparison of the three CPU-time counters. -/
def CpuCounters.allLe (a b : CpuCounters) : Prop :=
  a.cpu_time_user_seconds_total ≤ b.cpu_time_user_seconds_total ∧
  a.cpu_time_system_seconds_total ≤ b.cpu_time_system_seconds_total ∧
  a.cpu_time_idle_seconds_total ≤ b.cpu_time_idle_seconds_total

/-- Pointwise comparison of the four network counters. -/
def NetCounters.allLe (a b : NetCounters) : Prop :=
  a.network_bytes_received_total ≤ b.network_bytes_received_total ∧
  a.network_bytes_transmitted_total ≤ b.network_bytes_transmitted_total ∧
  a.network_packets_received_total ≤ b.network_packets_received_total ∧
  a.network_packets_transmitted_total ≤ b.network_packets_transmitted_total

/-- Pointwise comparison of the four disk I/O counters. -/
def DiskCounters.allLe (a b : DiskCounters) : Prop :=
  a.disk_reads_total ≤ b.disk_reads_total ∧
  a.disk_writes_total ≤ b.disk_writes_total ∧
  a.disk_read_bytes_total ≤ b.disk_read_bytes_total ∧
  a.disk_write_bytes_total ≤ b.disk_write_bytes_total

/-! ## Helper lemmas -/

/-- Folding a step function that never decreases a projection never
decreases the projection. -/
theorem foldl_proj_le {σ τ : Type} (f : σ → τ → σ) (P : τ → Prop) (proj : σ → ℚ)
    (hstep : ∀ s t, P t → proj s ≤ proj (f s t)) :
    ∀ (l : List τ), (∀ t ∈ l, P t) → ∀ s : σ, proj s ≤ proj (l.foldl f s) := by
  intro l
  induction l with
  | nil => intro _ s; exact le_refl _
  | cons t l ih =>
    intro hl s
    have h1 : proj s ≤ proj (f s t) := hstep s t (hl t (List.mem_cons_self t l))
    have h2 : proj (f s t) ≤ proj (List.foldl f (f s t) l) :=
      ih (fun u hu => hl u (List.mem_cons_of_mem t hu)) (f s t)
    simpa using le_trans h1 h2

/-- The projection after folding a longer prefix dominates the projection
after folding a shorter prefix. -/
theorem foldl_take_proj_mono {σ τ : Type} (f : σ → τ → σ) (P : τ → Prop)
    (proj : σ → ℚ) (hstep : ∀ s t, P t → proj s ≤ proj (f s t))
    (l : List τ) (hl : ∀ t ∈ l, P t) (s : σ) (i j : ℕ) (hij : i ≤ j) :
    proj ((l.take i).foldl f s) ≤ proj ((l.take j).foldl f s) := by
  have hdecomp : l.take j = l.take i ++ (l.take j).drop i := by
    conv_lhs => rw [← List.take_append_drop i (l.take j)]
    rw [List.take_take, min_eq_left hij]
  rw [hdecomp, List.foldl_append]
  exact foldl_proj_le f P proj hstep ((l.take j).drop i)
    (fun t ht => hl t (List.mem_of_mem_take (List.mem_of_mem_drop ht)))
    ((l.take i).foldl f s)

/-- Zipping a list against a mapped copy of itself is a map. -/
theorem zipWith_map_self {α β γ : Type} (l : List α) (f : α → β) (g : α → β → γ) :
    List.zipWith g l (l.map f) = l.map fun b => g b (f b) := by
  induction l with
  | nil => rfl
  | cons a l ih => simp [ih]

/-- When a histogram's counts are a pointwise function of its bounds, after
any observation sequence they are still a pointwise function of its bounds:
each bucket gains the number of new observations at or below its bound. -/
theorem observeAll_counts (vs : List ℚ) : ∀ (h : Histogram) (f : ℚ → ℕ),
    h.counts = h.bounds.map f →
    (h.observeAll vs).counts = h.bounds.map fun b => f b + bucketCount vs b := by
  induction vs with
  | nil =>
    intro h f hc
    simp [Histogram.observeAll, hc, bucketCount]
  | cons v vs ih =>
    intro h f hc
    show ((h.observe v).observeAll vs).counts = _
    have hb : (h.observe v).bounds = h.bounds := rfl
    have hc' : (h.observe v).counts
        = (h.observe v).bounds.map fun b => if v ≤ b then f b + 1 else f b := by
      rw [hb]
      show List.zipWith _ h.bounds h.counts = _
      rw [hc, zipWith_map_self]
    rw [ih (h.observe v) _ hc', hb]
    refine List.map_congr_left fun b _ => ?_
    by_cases hv : v ≤ b
    · simp [bucketCount, List.filter_cons, hv]
      ring
    · simp [bucketCount, List.filter_cons, hv]

/-- Each observation adds one to a histogram's running count. -/
theorem observeAll_hcount (vs : List ℚ) : ∀ (h : Histogram),
    (h.observeAll vs).hcount = h.hcount + vs.length := by
  induction vs with
  | nil => intro h; rfl
  | cons v vs ih =>
    intro h
    show ((h.observe v).observeAll vs).hcount = _
    rw [ih]
    simp [Histogram.observe]
    ring

/-- Each observation adds its value to a histogram's running sum. -/
theorem observeAll_hsum (vs : List ℚ) : ∀ (h : Histogram),
    (h.observeAll vs).hsum = h.hsum + vs.sum := by
  induction vs with
  | nil => intro h; simp [Histogram.observeAll]
  | cons v vs ih =>
    intro h
    show ((h.observe v).observeAll vs).hsum = _
    rw [ih]
    simp [Histogram.observe]
    ring

/-- Cumulative bucket counts grow with the bucket bound. -/
theorem bucketCount_mono (vs : List ℚ) (a b : ℚ) (hab : a ≤ b) :
    bucketCount vs a ≤ bucketCount vs b :=
  List.Sublist.length_le
    (List.monotone_filter_right vs fun v hv => by
      simp only [decide_eq_true_eq] at hv ⊢
      exact le_trans hv hab)

/-- Trace length of the scheduler loop: each iteration contributes one
acquire, one collect per collector, one release and one sleep. -/
theorem schedulerTrace_length (cs : List String) (n : ℕ) :
    (schedulerTrace cs n).length = n * (cs.length + 3) := by
  induction n with
  | zero => simp [schedulerTrace]
  | succ n ih =>
    simp [schedulerTrace, schedulerIteration, ih]
    ring

/-! ## Claims -/

/-- C1: for both the Memory and the Disk collector, the derived
usage-percent value is exactly 0 when the sampled total is 0, and exactly
100·used/total — in particular within 1e-9 of it — when the total T is
positive and 0 ≤ used ≤ T. -/
theorem C1_usage_percent_guarded (U T : ℕ) (hT : 0 < T) (_hUT : U ≤ T) :
    memory_usage_percent U 0 = 0 ∧ disk_usage_percent U 0 = 0 ∧
    memory_usage_percent U T = 100 * (U : ℚ) / (T : ℚ) ∧
    disk_usage_percent U T = 100 * (U : ℚ) / (T : ℚ) ∧
    |memory_usage_percent U T - 100 * (U : ℚ) / (T : ℚ)| ≤ 1 / 1000000000 ∧
    |disk_usage_percent U T - 100 * (U : ℚ) / (T : ℚ)| ≤ 1 / 1000000000 := by
  have hmem : memory_usage_percent U T = 100 * (U : ℚ) / (T : ℚ) := by
    rw [memory_usage_percent, if_pos hT]
    ring
  have hdisk : disk_usage_percent U T = 100 * (U : ℚ) / (T : ℚ) := by
    rw [disk_usage_percent, if_pos hT]
    ring
  refine ⟨by simp [memory_usage_percent], by simp [disk_usage_percent],
    hmem, hdisk, ?_, ?_⟩
  · rw [hmem, sub_self, abs_zero]; norm_num
  · rw [hdisk, sub_self, abs_zero]; norm_num

/-- C1 witness at used = 1, total = 2. -/
theorem C1_usage_percent_guarded_witness :
    0 < 2 ∧ 1 ≤ 2 ∧
    (memory_usage_percent 1 0 = 0 ∧ disk_usage_percent 1 0 = 0 ∧
     memory_usage_percent 1 2 = 100 * (1 : ℚ) / (2 : ℚ) ∧
     disk_usage_percent 1 2 = 100 * (1 : ℚ) / (2 : ℚ) ∧
     |memory_usage_percent 1 2 - 100 * (1 : ℚ) / (2 : ℚ)| ≤ 1 / 1000000000 ∧
     |disk_usage_percent 1 2 - 100 * (1 : ℚ) / (2 : ℚ)| ≤ 1 / 1000000000) :=
  ⟨by norm_num, by norm_num, C1_usage_percent_guarded 1 2 (by norm_num) (by norm_num)⟩

/-- C2: every counter delta applied by the collectors is non-negative
(random samples in [0, 1) scaled by positive constants, or `u64` totals),
so within one process lifetime each counter's stored value never decreases:
for any two observation points i ≤ j of any tick sequence, every counter of
the CPU, network and disk collectors at point j dominates its value at
point i. -/
theorem C2_counters_monotone
    (c0 : CpuCounters) (n0 : NetCounters) (d0 : DiskCounters)
    (cpuTicks : List CpuTick) (netTicks : List NetTick) (diskTicks : List DiskTick)
    (hc : ∀ t ∈ cpuTicks, t.valid) (hd : ∀ t ∈ diskTicks, t.valid)
    (i j : ℕ) (hij : i ≤ j) :
    (cpuRun c0 (cpuTicks.take i)).allLe (cpuRun c0 (cpuTicks.take j)) ∧
    (netRun n0 (netTicks.take i)).allLe (netRun n0 (netTicks.take j)) ∧
    (diskRun d0 (diskTicks.take i)).allLe (diskRun d0 (diskTicks.take j)) := by
  refine ⟨⟨?_, ?_, ?_⟩, ⟨?_, ?_, ?_, ?_⟩, ⟨?_, ?_, ?_, ?_⟩⟩
  · exact foldl_take_proj_mono cpuCollectCounters CpuTick.valid
      (fun c => c.cpu_time_user_seconds_total)
      (fun s t ht => le_add_of_nonneg_right (by nlinarith [ht.1]))
      cpuTicks hc c0 i j hij
  · exact foldl_take_proj_mono cpuCollectCounters CpuTick.valid
      (fun c => c.cpu_time_system_seconds_total)
      (fun s t ht => le_add_of_nonneg_right (by nlinarith [ht.2.2.1]))
      cpuTicks hc c0 i j hij
  · exact foldl_take_proj_mono cpuCollectCounters CpuTick.valid
      (fun c => c.cpu_time_idle_seconds_total)
      (fun s t ht => le_add_of_nonneg_right (by nlinarith [ht.2.2.2.2.1]))
      cpuTicks hc c0 i j hij
  · exact foldl_take_proj_mono netCollectCounters (fun _ => True)
      (fun c => c.network_bytes_received_total)
      (fun s t _ => le_add_of_nonneg_right (Nat.cast_nonneg _))
      netTicks (fun _ _ => trivial) n0 i j hij
  · exact foldl_take_proj_mono netCollectCounters (fun _ => True)
      (fun c => c.network_bytes_transmitted_total)
      (fun s t _ => le_add_of_nonneg_right (Nat.cast_nonneg _))
      netTicks (fun _ _ => trivial) n0 i j hij
  · exact foldl_take_proj_mono netCollectCounters (fun _ => True)
      (fun c => c.network_packets_received_total)
      (fun s t _ => le_add_of_nonneg_right (Nat.cast_nonneg _))
      netTicks (fun _ _ => trivial) n0 i j hij
  · exact foldl_take_proj_mono netCollectCounters (fun _ => True)
      (fun c => c.network_packets_transmitted_total)
      (fun s t _ => le_add_of_nonneg_right (Nat.cast_nonneg _))
      netTicks (fun _ _ => trivial) n0 i j hij
  · exact foldl_take_proj_mono diskCollectCounters DiskTick.valid
      (fun c => c.disk_reads_total)
      (fun s t ht => le_add_of_nonneg_right (by nlinarith [ht.1]))
      diskTicks hd d0 i j hij
  · exact foldl_take_proj_mono diskCollectCounters DiskTick.valid
      (fun c => c.disk_writes_total)
      (fun s t ht => le_add_of_nonneg_right (by nlinarith [ht.2.2.1]))
      diskTicks hd d0 i j hij
  · exact foldl_take_proj_mono diskCollectCounters DiskTick.valid
      (fun c => c.disk_read_bytes_total)
      (fun s t ht => le_add_of_nonneg_right (by nlinarith [ht.1]))
      diskTicks hd d0 i j hij
  · exact foldl_take_proj_mono diskCollectCounters DiskTick.valid
      (fun c => c.disk_write_bytes_total)
      (fun s t ht => le_add_of_nonneg_right (by nlinarith [ht.2.2.1]))
      diskTicks hd d0 i j hij

/-- C2 witness: one concrete tick per collector, observation points 0 and
1. -/
theorem C2_counters_monotone_witness :
    (∀ t ∈ [CpuTick.mk (1/2) (1/3) (1/4)], t.valid) ∧
    (∀ t ∈ [DiskTick.mk (1/2) (1/5)], t.valid) ∧
    (0 : ℕ) ≤ 1 ∧
    ((cpuRun (CpuCounters.mk 0 0 0) ([CpuTick.mk (1/2) (1/3) (1/4)].take 0)).allLe
        (cpuRun (CpuCounters.mk 0 0 0) ([CpuTick.mk (1/2) (1/3) (1/4)].take 1)) ∧
     (netRun (NetCounters.mk 0 0 0 0) ([NetTick.mk 1 2 3 4].take 0)).allLe
        (netRun (NetCounters.mk 0 0 0 0) ([NetTick.mk 1 2 3 4].take 1)) ∧
     (diskRun (DiskCounters.mk 0 0 0 0) ([DiskTick.mk (1/2) (1/5)].take 0)).allLe
        (diskRun (DiskCounters.mk 0 0 0 0) ([DiskTick.mk (1/2) (1/5)].take 1))) :=
  ⟨by norm_num [CpuTick.valid], by norm_num [DiskTick.valid], by norm_num,
   C2_counters_monotone (CpuCounters.mk 0 0 0) (NetCounters.mk 0 0 0 0)
     (DiskCounters.mk 0 0 0 0)
     [CpuTick.mk (1/2) (1/3) (1/4)] [NetTick.mk 1 2 3 4] [DiskTick.mk (1/2) (1/5)]
     (by norm_num [CpuTick.valid]) (by norm_num [DiskTick.valid]) 0 1
     (by norm_num)⟩

/-- C3: for a histogram created with ascending bounds, each bucket of any
snapshot holds the cumulative count of observations at or below its bound;
observing v increments exactly the buckets whose bound ≥ v by 1, `_count`
by 1 and `_sum` by v; and in any fixed snapshot the bucket counts are
non-decreasing in the bucket bound. -/
theorem C3_histogram_observe (bounds vs : List ℚ) (v : ℚ)
    (hb : bounds.Chain' (· < ·)) :
    ((Histogram.new bounds).observeAll vs).counts = bounds.map (bucketCount vs) ∧
    ((Histogram.new bounds).observeAll (vs ++ [v])).counts
      = bounds.map (fun b => bucketCount vs b + if v ≤ b then 1 else 0) ∧
    ((Histogram.new bounds).observeAll (vs ++ [v])).hcount
      = ((Histogram.new bounds).observeAll vs).hcount + 1 ∧
    ((Histogram.new bounds).observeAll (vs ++ [v])).hsum
      = ((Histogram.new bounds).observeAll vs).hsum + v ∧
    List.Chain' (· ≤ ·) (((Histogram.new bounds).observeAll vs).counts) := by
  have hcounts : ∀ ws : List ℚ,
      ((Histogram.new bounds).observeAll ws).counts
        = bounds.map (bucketCount ws) := by
    intro ws
    have h0 : (Histogram.new bounds).counts
        = (Histogram.new bounds).bounds.map fun _ => 0 := rfl
    have := observeAll_counts ws (Histogram.new bounds) (fun _ => 0) h0
    simpa [Histogram.new] using this
  refine ⟨hcounts vs, ?_, ?_, ?_, ?_⟩
  · rw [hcounts (vs ++ [v])]
    refine List.map_congr_left fun b _ => ?_
    by_cases hv : v ≤ b <;>
      simp [bucketCount, List.filter_append, hv]
  · rw [observeAll_hcount, observeAll_hcount]
    simp
    ring
  · rw [observeAll_hsum, observeAll_hsum]
    simp
    ring
  · rw [hcounts vs]
    exact List.chain'_map_of_chain' (bucketCount vs)
      (fun a b hab => bucketCount_mono vs a b (le_of_lt hab)) hb

/-- C3 witness: the CPU load histogram's bounds, one prior observation of
30, then an observation of 50. -/
theorem C3_histogram_observe_witness :
    cpu_load_distribution_buckets.Chain' (· < ·) ∧
    (((Histogram.new cpu_load_distribution_buckets).observeAll [30]).counts
        = cpu_load_distribution_buckets.map (bucketCount [30]) ∧
     ((Histogram.new cpu_load_distribution_buckets).observeAll ([30] ++ [50])).counts
        = cpu_load_distribution_buckets.map
            (fun b => bucketCount [30] b + if (50 : ℚ) ≤ b then 1 else 0) ∧
     ((Histogram.new cpu_load_distribution_buckets).observeAll ([30] ++ [50])).hcount
        = ((Histogram.new cpu_load_distribution_buckets).observeAll [30]).hcount + 1 ∧
     ((Histogram.new cpu_load_distribution_buckets).observeAll ([30] ++ [50])).hsum
        = ((Histogram.new cpu_load_distribution_buckets).observeAll [30]).hsum + 50 ∧
     List.Chain' (· ≤ ·)
       (((Histogram.new cpu_load_distribution_buckets).observeAll [30]).counts)) :=
  ⟨by norm_num [cpu_load_distribution_buckets],
   C3_histogram_observe cpu_load_distribution_buckets [30] 50
     (by norm_num [cpu_load_distribution_buckets])⟩

/-- C6: for every inbound request, whatever its method or path, the handler
answers 200 with the encoder's format type as Content-Type and the encoded
registry dump as body; when encoding fails it answers 500 with a plain-text
body instead of failing, and the response does not depend on the request. -/
theorem C6_exposition_contract (req req' : HttpRequest) (fmt buffer msg : String)
    (e : EncodeOutcome) :
    metrics_handler req fmt (Except.ok buffer)
      = Except.ok { status := 200, contentType := some fmt, body := buffer } ∧
    metrics_handler req fmt (Except.error msg)
      = Except.ok { status := 500, contentType := none,
                    body := "Internal Server Error" } ∧
    metrics_handler req fmt e = metrics_handler req' fmt e :=
  ⟨rfl, rfl, rfl⟩

/-- C10: the handler never returns the error variant of its Result: every
request and every encoder outcome produces `Ok` of a complete response,
either 200 with the encoded body or 500 with the fixed error body. -/
theorem C10_handler_total (req : HttpRequest) (fmt : String) (e : EncodeOutcome) :
    (∀ err : HyperError, metrics_handler req fmt e ≠ Except.error err) ∧
    (∃ resp : HttpResponse, metrics_handler req fmt e = Except.ok resp ∧
      ((∃ buffer, e = Except.ok buffer ∧
         resp.status = 200 ∧ resp.body = buffer) ∨
       (∃ msg, e = Except.error msg ∧
         resp.status = 500 ∧ resp.body = "Internal Server Error"))) := by
  match e with
  | .ok buffer =>
    exact ⟨fun err h => by simp [metrics_handler] at h,
      ⟨_, rfl, Or.inl ⟨buffer, rfl, rfl, rfl⟩⟩⟩
  | .error msg =>
    exact ⟨fun err h => by simp [metrics_handler] at h,
      ⟨_, rfl, Or.inr ⟨msg, rfl, rfl, rfl⟩⟩⟩

/-- C4: registering a name that already exists fails with
`DuplicateMetricName` and leaves the originally registered metric's value
unchanged; during the startup registration sequence such a failure aborts
the sequence at that point, so the process never runs with a partially
registered metric set silently accepted. -/
theorem C4_duplicate_registration (r : Registry) (name : String) (m m0 : Metric)
    (rest : List (String × Metric)) (h : r.find? name = some m0) :
    r.register name m = (r, some RegistrationError.DuplicateMetricName) ∧
    (r.register name m).1.find? name = some m0 ∧
    registerAll r ((name, m) :: rest)
      = Except.error RegistrationError.DuplicateMetricName := by
  have hmem : name ∈ r.names := by
    rw [Registry.find?] at h
    rcases Option.map_eq_some'.mp h with ⟨p, hp, _⟩
    have hpmem := List.mem_of_find?_eq_some hp
    have hpeq := List.find?_some hp
    simp only [decide_eq_true_eq] at hpeq
    rw [Registry.names, ← hpeq]
    exact List.mem_map_of_mem Prod.fst hpmem
  have hreg : r.register name m = (r, some RegistrationError.DuplicateMetricName) := by
    simp [Registry.register, hmem]
  refine ⟨hreg, by rw [hreg]; exact h, ?_⟩
  show (match r.register name m with
    | (r', none) => registerAll r' rest
    | (_, some e) => .error e)
      = Except.error RegistrationError.DuplicateMetricName
  rw [hreg]

/-- C4 witness: the registry already holds `cpu_usage_percent` at value 3;
a second registration of that name, with the startup sequence also wanting
to register `memory_usage_percent` afterwards. -/
theorem C4_duplicate_registration_witness :
    (Registry.mk [("cpu_usage_percent", Metric.gauge 3)]).find? "cpu_usage_percent"
        = some (Metric.gauge 3) ∧
    ((Registry.mk [("cpu_usage_percent", Metric.gauge 3)]).register
        "cpu_usage_percent" (Metric.gauge 7)
      = (Registry.mk [("cpu_usage_percent", Metric.gauge 3)],
         some RegistrationError.DuplicateMetricName) ∧
     ((Registry.mk [("cpu_usage_percent", Metric.gauge 3)]).register
        "cpu_usage_percent" (Metric.gauge 7)).1.find? "cpu_usage_percent"
      = some (Metric.gauge 3) ∧
     registerAll (Registry.mk [("cpu_usage_percent", Metric.gauge 3)])
        [("cpu_usage_percent", Metric.gauge 7), ("memory_usage_percent", Metric.gauge 0)]
      = Except.error RegistrationError.DuplicateMetricName) :=
  ⟨rfl, C4_duplicate_registration
    (Registry.mk [("cpu_usage_percent", Metric.gauge 3)])
    "cpu_usage_percent" (Metric.gauge 7) (Metric.gauge 3)
    [("memory_usage_percent", Metric.gauge 0)] rfl⟩

/-- C5: with a fresh name, `create_histogram` fails with `InvalidBuckets`
exactly when the bound sequence is empty or not strictly ascending, and
succeeds (registering a fresh histogram) for every non-empty strictly
ascending sequence; the three bucket sequences the collectors register at
startup are all valid. -/
theorem C5_create_histogram_validation (r : Registry) (name : String)
    (bounds : List ℚ) (hfresh : r.names.contains name = false) :
    ((bounds = [] ∨ ¬ bounds.Chain' (· < ·)) →
       r.create_histogram name bounds
         = (r, some RegistrationError.InvalidBuckets)) ∧
    (bounds ≠ [] → bounds.Chain' (· < ·) →
       r.create_histogram name bounds
         = (Registry.mk
              (r.metrics ++ [(name, Metric.histogram (Histogram.new bounds))]),
            none)) ∧
    validBuckets cpu_load_distribution_buckets ∧
    validBuckets disk_operation_duration_buckets ∧
    validBuckets network_latency_buckets := by
  have hf : ¬ name ∈ r.names := by
    intro hmem
    have : r.names.contains name = true := List.elem_iff.mpr hmem
    rw [hfresh] at this
    exact Bool.false_ne_true this
  refine ⟨?_, ?_, ?_, ?_, ?_⟩
  · intro hbad
    have hnv : ¬ validBuckets bounds := by
      rintro ⟨hne, hch⟩
      rcases hbad with he | hnc
      · exact hne he
      · exact hnc hch
    simp [Registry.create_histogram, hf, hnv]
  · intro hne hch
    have hv : validBuckets bounds := ⟨hne, hch⟩
    simp [Registry.create_histogram, hf, hv]
  · exact ⟨by simp [cpu_load_distribution_buckets],
      by norm_num [cpu_load_distribution_buckets, List.chain'_cons]⟩
  · exact ⟨by simp [disk_operation_duration_buckets],
      by norm_num [disk_operation_duration_buckets, List.chain'_cons]⟩
  · exact ⟨by simp [network_latency_buckets],
      by norm_num [network_latency_buckets, List.chain'_cons]⟩

/-- C5 witness: an empty registry and the CPU histogram's name and
bounds. -/
theorem C5_create_histogram_validation_witness :
    (Registry.mk []).names.contains "cpu_load_distribution" = false ∧
    (((cpu_load_distribution_buckets = []
        ∨ ¬ cpu_load_distribution_buckets.Chain' (· < ·)) →
       (Registry.mk []).create_histogram "cpu_load_distribution"
           cpu_load_distribution_buckets
         = (Registry.mk [], some RegistrationError.InvalidBuckets)) ∧
     (cpu_load_distribution_buckets ≠ []
        → cpu_load_distribution_buckets.Chain' (· < ·) →
       (Registry.mk []).create_histogram "cpu_load_distribution"
           cpu_load_distribution_buckets
         = (Registry.mk
              [("cpu_load_distribution",
                Metric.histogram (Histogram.new cpu_load_distribution_buckets))],
            none)) ∧
     validBuckets cpu_load_distribution_buckets ∧
     validBuckets disk_operation_duration_buckets ∧
     validBuckets network_latency_buckets) :=
  ⟨rfl, C5_create_histogram_validation (Registry.mk []) "cpu_load_distribution"
    cpu_load_distribution_buckets rfl⟩

/-- C8 counterexample: the claim quantifies over every sampler outcome, but
at the concrete outcome of a single disk mounted at "/" reporting
`total_space = 0` and `available_space = 1`, the `u64` subtraction
`total_space - available_space` (disk.rs line 140) underflows, so
`collect_metrics` does not return normally with fallback or last-observed
values (in a debug build it is an arithmetic-overflow abort; in a release
build it wraps and writes a garbage value near 2^64, which is neither a
documented fallback constant nor a last successfully observed value). -/
theorem C8_counterexample :
    diskCollectGauges [DiskInfo.mk "/" 0 1] = none := by
  rfl

/-- C8 (amended): for every sampler outcome in which the selected disk
reports `available_space ≤ total_space` — including the outcome of no disk
being found — `DiskCollector::collect_metrics` returns normally; when no
disk is found it writes exactly the documented fallback constants, and
`CpuCollector::collect_metrics` returns normally on every sampler outcome,
reporting the fallback frequency 0 when the CPU list is empty. -/
theorem C8_collect_no_panic (disks : List DiskInfo)
    (h : ∀ d, selectDisk disks = some d → d.available_space ≤ d.total_space) :
    (diskCollectGauges disks).isSome = true ∧
    (selectDisk disks = none →
       diskCollectGauges disks = some diskFallbackGauges) ∧
    (∀ usage : ℚ, (cpuCollectGauges usage []).2.2 = 0) := by
  refine ⟨?_, ?_, ?_⟩
  · cases hsel : selectDisk disks with
    | none => simp [diskCollectGauges, hsel]
    | some d =>
      have hle := h d hsel
      simp [diskCollectGauges, hsel, u64Sub, hle]
  · intro hsel
    simp [diskCollectGauges, hsel]
  · intro usage
    simp [cpuCollectGauges]

/-- C8 witness: the sampler outcome of no disk found. -/
theorem C8_collect_no_panic_witness :
    (∀ d, selectDisk [] = some d → d.available_space ≤ d.total_space) ∧
    ((diskCollectGauges []).isSome = true ∧
     (selectDisk [] = none → diskCollectGauges [] = some diskFallbackGauges) ∧
     (∀ usage : ℚ, (cpuCollectGauges usage []).2.2 = 0)) :=
  ⟨fun d hd => by simp [selectDisk] at hd,
   C8_collect_no_panic [] (fun d hd => by simp [selectDisk] at hd)⟩

/-- C7: the scheduler is an unbounded loop — the trace is defined and
strictly grows at every n — and each iteration appends exactly: acquire the
guard, collect every collector of the set in its fixed order, release the
guard, sleep 5 seconds. -/
theorem C7_scheduler_loop (n : ℕ) :
    schedulerTrace collectorSet (n + 1)
      = schedulerTrace collectorSet n
        ++ (SchedEvent.acquire
            :: (collectorSet.map SchedEvent.collect
                ++ [SchedEvent.release, SchedEvent.sleep 5])) ∧
    collectorSet
      = ["CpuCollector", "MemoryCollector", "DiskCollector", "SystemCollector",
         "NetworkCollector"] ∧
    (schedulerTrace collectorSet n).length = n * 8 ∧
    (schedulerTrace collectorSet n).length
      < (schedulerTrace collectorSet (n + 1)).length := by
  refine ⟨rfl, rfl, ?_, ?_⟩
  · rw [schedulerTrace_length]; rfl
  · rw [schedulerTrace_length, schedulerTrace_length]
    simp [collectorSet]

end Metrixd
